import Mathlib

/-!
Shallow embedding of the coordinate-transform, picking, zoom-pan and input
handling core of `src/app/src/js/components/label2d_view.tsx` (class
`Label2DView`), together with theorems checking the specification claims.

Numbers: the TypeScript source computes with IEEE doubles; here coordinates,
scales and ratios are embedded as rationals (ℚ), and all concrete inputs used
in witnesses are exactly representable, so the embedded arithmetic agrees
with the source arithmetic at those points.

Mutable fields of the component are gathered in `ComponentState`; everything
the handlers read from the DOM or from the external store (bounding
rectangles, attachment of canvases and contexts, the viewer configuration,
the image size) is passed explicitly in `DomEnv` / `ViewerConfig` / `ImageSize`.
-/

namespace Label2DView

/-- Constant from the constructor: `this.MAX_SCALE = 3.0`. -/
def MAX_SCALE : ℚ := 3

/-- Constant from the constructor: `this.MIN_SCALE = 1.0`. -/
def MIN_SCALE : ℚ := 1

/-- Constant from the constructor: `this.UP_RES_RATIO = 2`. -/
def UP_RES_RATIO : ℚ := 2

/-- Embedding of `Vector2D` from `js/math/vector2d` as used here: a pair of
coordinates, indexable as `[0]`/`[1]` and supporting `clone().scale(s)`. -/
structure Vector2D where
  x : ℚ
  y : ℚ
deriving DecidableEq, Repr

/-- Embedding of `Vector2D.scale`: multiplies both components. -/
def Vector2D.scale (v : Vector2D) (s : ℚ) : Vector2D :=
  ⟨v.x * s, v.y * s⟩

/-- Embedding of `toCanvasCoords(values, upRes)` (lines 171-177): scales by
`displayToImageRatio`, then additionally by `UP_RES_RATIO` when `upRes`. -/
def toCanvasCoords (displayToImageRatio : ℚ) (values : Vector2D)
    (upRes : Bool) : Vector2D :=
  let out := values.scale displayToImageRatio
  if upRes then out.scale UP_RES_RATIO else out

/-- Embedding of `toImageCoords(values, upRes = true)` (lines 187-190): the
source computes `up = upRes ? 1 / UP_RES_RATIO : 1` and then scales the input
by `displayToImageRatio * up` (note: it multiplies by `displayToImageRatio`,
it does not divide). -/
def toImageCoords (displayToImageRatio : ℚ) (values : Vector2D)
    (upRes : Bool) : Vector2D :=
  let up : ℚ := if upRes then 1 / UP_RES_RATIO else 1
  values.scale (displayToImageRatio * up)

/-- Embedding of `mode(arr)` (lines 36-41): sorts the array in place by
ascending frequency (`arr.filter(v === a).length - arr.filter(v === b).length`)
and pops the last element. The in-place JavaScript sort is embedded as a
stable sort by the same key over the same multiset of elements; `pop` on the
resulting nonempty array is `getLast?`. -/
def mode (arr : List ℕ) : Option ℕ :=
  (arr.insertionSort (fun a b => arr.count a ≤ arr.count b)).getLast?

/-- Modelled from the spec: `rgbToIndex(rgb)` from `js/drawable/util` is not
under `src/`; section 3 of the spec defines the packing of the three 8-bit
channels as `index = r + g*256 + b*65536`. -/
def rgbToIndex (rgb : List ℕ) : ℕ :=
  rgb.getD 0 0 + rgb.getD 1 0 * 256 + rgb.getD 2 0 * 65536

/-- Modelled from the spec: `decodeControlIndex(index)` from
`js/drawable/util` is not under `src/`; section 3 of the spec defines the
decoded pair as `handleId = index & 0xFF` and `labelId = (index >> 8) - 1`,
and the call site `const [labelIndex, handleIndex] = this.fetchHandleId(...)`
fixes the order of the returned array as `[labelId, handleId]`. -/
def decodeControlIndex (index : ℕ) : List ℤ :=
  [(index / 256 : ℤ) - 1, (index % 256 : ℤ)]

/-- Mouse (or wheel) event data read by the handlers: `e.x`/`e.y` are used by
`isWithinFrame`, `e.clientX`/`e.clientY` by the position computations, and
`e.button` by the button guards. -/
structure MouseEvent where
  x : ℚ
  y : ℚ
  clientX : ℚ
  clientY : ℚ
  button : ℕ
deriving DecidableEq, Repr

/-- Everything the component reads from the DOM: attachment of the tracked
elements and their geometry. `bg*` is `this.background.getBoundingClientRect()`,
`display*` is `this.display.getBoundingClientRect()`, `controlCanvas*` are the
bounding-rectangle origin, the buffer width/height attributes and the CSS
offsets of `this.controlCanvas`. -/
structure DomEnv where
  backgroundAttached : Bool
  bgLeft : ℚ
  bgTop : ℚ
  bgWidth : ℚ
  bgHeight : ℚ
  displayAttached : Bool
  displayX : ℚ
  displayY : ℚ
  displayWidth : ℚ
  displayHeight : ℚ
  controlCanvasAttached : Bool
  controlCanvasX : ℚ
  controlCanvasY : ℚ
  controlCanvasWidth : ℚ
  controlCanvasHeight : ℚ
  controlCanvasOffsetLeft : ℚ
  controlCanvasOffsetTop : ℚ
  controlContextAttached : Bool
  labelCanvasAttached : Bool
  labelContextAttached : Bool
deriving DecidableEq, Repr

/-- External view configuration, read through `getCurrentViewerConfig()`. -/
structure ViewerConfig where
  viewScale : ℚ
  viewOffsetX : ℚ
  viewOffsetY : ℚ
deriving DecidableEq, Repr

/-- Pixel size of the current image, read through `Session.images[...]`. -/
structure ImageSize where
  width : ℚ
  height : ℚ
deriving DecidableEq, Repr

/-- The mutable fields of the component that the embedded operations touch:
the display variables (`scale`, `canvasWidth`, `canvasHeight`,
`displayToImageRatio`), the keyboard and grab status, the scroll position of
`this.display`, and the cursor of the label canvas. -/
structure ComponentState where
  scale : ℚ
  canvasWidth : ℚ
  canvasHeight : ℚ
  displayToImageRatio : ℚ
  keyDownMap : List String
  isGrabbingImage : Bool
  startGrabX : ℚ
  startGrabY : ℚ
  startGrabVisibleCoords : List ℚ
  scrollLeft : ℚ
  scrollTop : ℚ
  cursor : String
deriving DecidableEq, Repr

/-- Embedding of `getVisibleCanvasCoords()` (lines 311-318): the delta of the
display and control-canvas bounding-rectangle origins when both are attached,
else `(0, 0)`. -/
def getVisibleCanvasCoords (env : DomEnv) : Vector2D :=
  if env.displayAttached ∧ env.controlCanvasAttached then
    ⟨env.displayX - env.controlCanvasX, env.displayY - env.controlCanvasY⟩
  else ⟨0, 0⟩

/-- Embedding of `getMousePos(e)` (lines 326-342): offsets the client
coordinates by the display origin and the visible canvas coordinates, clamps
both axes to `[0, canvasWidth] × [0, canvasHeight]`, and divides by
`displayToImageRatio`; `(0, 0)` when the display is not attached. -/
def getMousePos (s : ComponentState) (env : DomEnv) (e : MouseEvent) :
    Vector2D :=
  if env.displayAttached then
    let off := getVisibleCanvasCoords env
    let x := e.clientX - env.displayX + off.x
    let y := e.clientY - env.displayY + off.y
    let x := max 0 (min x s.canvasWidth)
    let y := max 0 (min y s.canvasHeight)
    ⟨x / s.displayToImageRatio, y / s.displayToImageRatio⟩
  else ⟨0, 0⟩

/-- Embedding of `fetchHandleId(mousePos)` (lines 349-365). The control
context is embedded as an optional sampling function returning the byte array
of `getImageData(x, y, 4, 4).data`; the source decodes 16 samples (3 of every
4 bytes), takes their `mode`, and decodes it; with no control context it
returns `[-1, 0]`. -/
def fetchHandleId (controlContext : Option (ℚ → ℚ → List ℕ))
    (displayToImageRatio : ℚ) (mousePos : Vector2D) : List ℤ :=
  match controlContext with
  | some getImageData =>
    let c := toCanvasCoords displayToImageRatio mousePos true
    let data := getImageData c.x c.y
    let arr := (List.range 16).map (fun i => rgbToIndex ((data.drop (i * 4)).take 3))
    decodeControlIndex ((mode arr).getD 0)
  | none => [-1, 0]

/-- Embedding of `isWithinFrame(e)` (lines 370-378): bounding-box test of the
event against the background rectangle, `false` with no background. -/
def isWithinFrame (env : DomEnv) (e : MouseEvent) : Bool :=
  if env.backgroundAttached then
    decide (e.x ≥ env.bgLeft) && decide (e.y ≥ env.bgTop) &&
    decide (e.x ≤ env.bgLeft + env.bgWidth) &&
    decide (e.y ≤ env.bgTop + env.bgHeight)
  else false

/-- Embedding of `isKeyDown(key)` (lines 525-527): membership in the held-key
map (the dictionary with value `true` is embedded as the list of held keys). -/
def isKeyDown (s : ComponentState) (key : String) : Bool :=
  decide (key ∈ s.keyDownMap)

/-- Embedding of `onKeyDown(e)` (lines 506-509): records the key as held. -/
def onKeyDown (s : ComponentState) (key : String) : ComponentState :=
  if key ∈ s.keyDownMap then s
  else { s with keyDownMap := key :: s.keyDownMap }

/-- Embedding of `onKeyUp(e)` (lines 515-518): deletes the key from the map. -/
def onKeyUp (s : ComponentState) (key : String) : ComponentState :=
  { s with keyDownMap := s.keyDownMap.filter (fun k => k ≠ key) }

/-- Embedding of `onMouseDown(e)` (lines 384-409), restricted to the state
this subsystem owns (the forwarding of position and pick to the external
label list mutates only the excluded collaborator). With Control held,
an attached display and control canvas, and a control canvas buffer larger
than the display in either dimension, it starts a grab session recording the
client coordinates and the visible canvas coordinates. -/
def onMouseDown (s : ComponentState) (env : DomEnv) (e : MouseEvent) :
    ComponentState :=
  if ¬(isWithinFrame env e = true) ∨ e.button ≠ 0 then s
  else if isKeyDown s "Control" then
    if env.displayAttached ∧ env.controlCanvasAttached ∧
        (env.controlCanvasWidth > env.displayWidth ∨
         env.controlCanvasHeight > env.displayHeight) then
      let vis := getVisibleCanvasCoords env
      { s with cursor := "grabbing", isGrabbingImage := true,
               startGrabX := e.clientX, startGrabY := e.clientY,
               startGrabVisibleCoords := [vis.x, vis.y] }
    else s
  else s

/-- Embedding of `onMouseUp(e)` (lines 415-429), restricted to the state this
subsystem owns: inside the frame with the primary button, it resets the grab
session fields to their initial values; otherwise it returns early. -/
def onMouseUp (s : ComponentState) (env : DomEnv) (e : MouseEvent) :
    ComponentState :=
  if ¬(isWithinFrame env e = true) ∨ e.button ≠ 0 then s
  else
    { s with isGrabbingImage := false, startGrabX := -1, startGrabY := -1,
             startGrabVisibleCoords := [] }

/-- Embedding of `onMouseLeave(e)` (lines 435-438): empties the held-key map
and delegates to `onMouseUp`. -/
def onMouseLeave (s : ComponentState) (env : DomEnv) (e : MouseEvent) :
    ComponentState :=
  onMouseUp { s with keyDownMap := [] } env e

/-- Embedding of `onMouseMove(e)` (lines 444-473), restricted to the state
this subsystem owns: outside the frame it delegates to `onMouseLeave`; with
Control held and an active grab it scrolls the display by the client delta
from the grab start; with Control held and no grab it shows the grab cursor;
otherwise it restores the default cursor (`setDefaultCursor`, line 150,
sets `crosshair`). -/
def onMouseMove (s : ComponentState) (env : DomEnv) (e : MouseEvent) :
    ComponentState :=
  if ¬(isWithinFrame env e = true) then onMouseLeave s env e
  else if isKeyDown s "Control" then
    if s.isGrabbingImage then
      if env.displayAttached then
        let dx := e.clientX - s.startGrabX
        let dy := e.clientY - s.startGrabY
        { s with cursor := "grabbing",
                 scrollLeft := s.startGrabVisibleCoords.getD 0 0 - dx,
                 scrollTop := s.startGrabVisibleCoords.getD 1 0 - dy }
      else s
    else { s with cursor := "grab" }
  else { s with cursor := "crosshair" }

/-- Embedding of the `mouseOffset` computed by `updateScale` (lines 555-569)
when `config.viewScale > 1.0`: either half the clipped display size (when a
view offset is negative) or the view offset mapped through `toCanvasCoords`
at the old ratio minus the upper-left visible coordinates. -/
def mouseOffset (s : ComponentState) (env : DomEnv) (config : ViewerConfig) :
    Vector2D :=
  if config.viewOffsetX < 0 ∨ config.viewOffsetY < 0 then
    ⟨min env.displayWidth env.controlCanvasWidth / 2,
     min env.displayHeight env.controlCanvasHeight / 2⟩
  else
    let m := toCanvasCoords s.displayToImageRatio
      ⟨config.viewOffsetX, config.viewOffsetY⟩ false
    let ul := getVisibleCanvasCoords env
    ⟨m.x - ul.x, m.y - ul.y⟩

/-- Embedding of the canvas-resize block of `updateScale` (lines 582-595):
the new `canvasWidth`, `canvasHeight` and `displayToImageRatio` fitting the
image aspect ratio into the display at `viewScale`. -/
def newCanvasSize (env : DomEnv) (config : ViewerConfig) (image : ImageSize) :
    ℚ × ℚ × ℚ :=
  let ratio := image.width / image.height
  if env.displayWidth / env.displayHeight > ratio then
    let canvasHeight := env.displayHeight * config.viewScale
    (canvasHeight * ratio, canvasHeight, canvasHeight / image.height)
  else
    let canvasWidth := env.displayWidth * config.viewScale
    (canvasWidth, canvasWidth / ratio, canvasWidth / image.width)

/-- Embedding of `updateScale(canvas, upRes)` (lines 548-641), restricted to
the state this subsystem owns (the canvas resolution, CSS size and padding
writes mutate only the DOM element passed in). It returns early with the
state unchanged when display, control canvas or control context is missing,
or when `config.viewScale` falls outside `[MIN_SCALE, MAX_SCALE)`; otherwise
it commits the new canvas size, ratio and scale, resets the scroll position
to the canvas offsets when an anchor was computed, and overwrites the scroll
on each axis where the new canvas exceeds the display with
`zoomRatio * (upperLeftCoords + mouseOffset) - mouseOffset`. -/
def updateScale (s : ComponentState) (env : DomEnv) (config : ViewerConfig)
    (image : ImageSize) : ComponentState :=
  if ¬(env.displayAttached ∧ env.controlCanvasAttached ∧
       env.controlContextAttached) then s
  else if MIN_SCALE ≤ config.viewScale ∧ config.viewScale < MAX_SCALE then
    -- In the source, `mouseOffset` and `upperLeftCoords` are both assigned
    -- exactly when `config.viewScale > 1.0`, so the guards
    -- `if (mouseOffset)` and `if (mouseOffset && upperLeftCoords)` of the
    -- scroll writes reduce to that condition.
    let zoomRatio := config.viewScale / s.scale
    let off := mouseOffset s env config
    let ul := getVisibleCanvasCoords env
    let canvasWidth := (newCanvasSize env config image).1
    let canvasHeight := (newCanvasSize env config image).2.1
    let displayToImageRatio := (newCanvasSize env config image).2.2
    let scrollLeft :=
      if config.viewScale > 1 then
        if canvasWidth > env.displayWidth then
          zoomRatio * (ul.x + off.x) - off.x
        else env.controlCanvasOffsetLeft
      else s.scrollLeft
    let scrollTop :=
      if config.viewScale > 1 then
        if canvasHeight > env.displayHeight then
          zoomRatio * (ul.y + off.y) - off.y
        else env.controlCanvasOffsetTop
      else s.scrollTop
    { s with scale := config.viewScale, canvasWidth := canvasWidth,
             canvasHeight := canvasHeight,
             displayToImageRatio := displayToImageRatio,
             scrollLeft := scrollLeft, scrollTop := scrollTop }
  else s

/-- Embedding of `redraw()` (lines 276-285): the guard of the clear-and-draw
path, true exactly when both canvases and both contexts are attached. -/
def redrawPaints (env : DomEnv) : Bool :=
  env.labelCanvasAttached && env.labelContextAttached &&
  env.controlCanvasAttached && env.controlContextAttached

/-- Embedding of the return value of `redraw()` (lines 276-285): the source
returns `true` on both the painting path and the skipping path. -/
def redraw (env : DomEnv) : Bool :=
  if redrawPaints env then true else true

/-! Concrete fixtures used by witnesses and counterexamples: an 800×600
display inside a large background, with a 400×300 image loaded at scale 1
(so the canvas is 800×600 and the display-to-image ratio is 2), and the
view configurations exercised by the spec scenarios. -/

/-- Fixture: a fully attached DOM with an 800×600 display. -/
def baseEnv : DomEnv :=
  { backgroundAttached := true, bgLeft := 0, bgTop := 0,
    bgWidth := 1000, bgHeight := 1000,
    displayAttached := true, displayX := 0, displayY := 0,
    displayWidth := 800, displayHeight := 600,
    controlCanvasAttached := true, controlCanvasX := 0, controlCanvasY := 0,
    controlCanvasWidth := 1600, controlCanvasHeight := 1200,
    controlCanvasOffsetLeft := 0, controlCanvasOffsetTop := 0,
    controlContextAttached := true,
    labelCanvasAttached := true, labelContextAttached := true }

/-- Fixture: the component state after an initial rescale of the 400×300
image at scale 1 in the 800×600 display. -/
def baseState : ComponentState :=
  { scale := 1, canvasWidth := 800, canvasHeight := 600,
    displayToImageRatio := 2,
    keyDownMap := [], isGrabbingImage := false,
    startGrabX := -1, startGrabY := -1, startGrabVisibleCoords := [],
    scrollLeft := 0, scrollTop := 0, cursor := "crosshair" }

/-- Fixture: the 400×300 image of the zoom-to-point scenario. -/
def image400 : ImageSize := { width := 400, height := 300 }

/-- Fixture: the zoom-to-point view configuration of the spec scenario. -/
def zoomConfig : ViewerConfig :=
  { viewScale := 2, viewOffsetX := 200, viewOffsetY := 150 }

/-- Fixture: an under-range view configuration (`viewScale = 0.5`). -/
def halfConfig : ViewerConfig :=
  { viewScale := 1 / 2, viewOffsetX := -1, viewOffsetY := -1 }

/-- Fixture: an at-upper-bound view configuration (`viewScale = 3.0`). -/
def threeConfig : ViewerConfig :=
  { viewScale := 3, viewOffsetX := -1, viewOffsetY := -1 }

/-- Fixture: the DOM with the control canvas not yet attached. -/
def envNoCanvas : DomEnv := { baseEnv with controlCanvasAttached := false }

/-- Fixture: the DOM with neither display nor control canvas attached. -/
def envDetached : DomEnv :=
  { baseEnv with displayAttached := false, controlCanvasAttached := false }

/-- Fixture: the component state with the Control key held. -/
def ctrlState : ComponentState := { baseState with keyDownMap := ["Control"] }

/-- Fixture: the component state in the middle of a grab session started at
client `(10, 10)` with visible coordinates `(0, 0)`. -/
def grabState : ComponentState :=
  { baseState with
      keyDownMap := ["Control"]
      isGrabbingImage := true
      startGrabX := 10
      startGrabY := 10
      startGrabVisibleCoords := [0, 0] }

/-- Fixture: a 16-element sample array in which the value 5 occurs 9 times
(a strict majority), interleaved with 7 occurrences of 2. -/
def majoritySample : List ℕ :=
  [2, 5, 2, 5, 5, 2, 5, 2, 5, 5, 2, 5, 2, 5, 2, 5]

/-- Fixture: a 16-element sample array with an exact 8–8 frequency tie. -/
def tieSample : List ℕ :=
  [1, 2, 1, 2, 1, 2, 1, 2, 1, 2, 1, 2, 1, 2, 1, 2]

/-- Fixture: the mouse-down event of the grab-pan scenario. -/
def grabDownEvent : MouseEvent := ⟨10, 10, 10, 10, 0⟩

/-- Fixture: the mouse-move event of the grab-pan scenario, a `(10, 15)`
client delta from the mouse-down. -/
def grabMoveEvent : MouseEvent := ⟨20, 25, 20, 25, 0⟩

/-- Fixture: the mouse-up event of the grab-pan scenario. -/
def grabUpEvent : MouseEvent := ⟨20, 25, 20, 25, 0⟩

/-- Fixture: a later mouse-move event after the modifier was released. -/
def afterMoveEvent : MouseEvent := ⟨30, 30, 30, 30, 0⟩

/-- C1: the round trip `toImageCoords (toCanvasCoords p true) true` does not
return `p` within tolerance `1e-9` for every ratio `ρ > 0`: at `ρ = 2` and
`p = (1, 1)` the source multiplies by `displayToImageRatio` in both
directions, so the round trip yields `(4, 4)`, off by 3. This evaluates the
code at the failing input of the claim. -/
theorem c1_roundTrip_fails_at_ratio_two :
    toImageCoords 2 (toCanvasCoords 2 ⟨1, 1⟩ true) true = (⟨4, 4⟩ : Vector2D) ∧
    |(toImageCoords 2 (toCanvasCoords 2 ⟨1, 1⟩ true) true).x - 1| >
      1 / 1000000000 ∧
    |(toImageCoords 2 (toCanvasCoords 2 ⟨1, 1⟩ true) true).y - 1| >
      1 / 1000000000 := by
  refine ⟨?_, ?_, ?_⟩ <;>
    simp [toImageCoords, toCanvasCoords, Vector2D.scale, UP_RES_RATIO] <;>
    norm_num

/-- C10: `redraw` returns `true` unconditionally, both on the painting path
and on the skipping path, so its boolean result never distinguishes the
two. -/
theorem c10_redraw_always_returns_true :
    (∀ env : DomEnv, redraw env = true) ∧
    redrawPaints baseEnv = true ∧ redrawPaints envNoCanvas = false ∧
    redraw baseEnv = redraw envNoCanvas := by
  refine ⟨fun env => ?_, rfl, rfl, rfl⟩
  simp [redraw]

/-- C9 counterexample: the claim says the coordinate queries return `(0, 0)`
when the display or the canvas is not attached, but `getMousePos` only checks
the display: with the display attached and the control canvas missing it
returns a computed, nonzero position. -/
theorem c9_counterexample_getMousePos_nonzero :
    envNoCanvas.controlCanvasAttached = false ∧
    getMousePos baseState envNoCanvas ⟨10, 0, 10, 0, 0⟩ ≠
      (⟨0, 0⟩ : Vector2D) := by
  refine ⟨rfl, ?_⟩
  simp [getMousePos, getVisibleCanvasCoords, envNoCanvas, baseEnv, baseState]
  norm_num

/-- C9 amended: picking returns the sentinel `[-1, 0]` when no control
context exists; `getVisibleCanvasCoords` returns `(0, 0)` when the display or
the canvas is not attached; and `getMousePos` returns `(0, 0)` when the
display is not attached (only the display is checked there). -/
theorem c9_missing_resource_defaults (ρ : ℚ) (p : Vector2D)
    (s : ComponentState) (env : DomEnv) (e : MouseEvent) :
    fetchHandleId none ρ p = [-1, 0] ∧
    (¬(env.displayAttached = true ∧ env.controlCanvasAttached = true) →
      getVisibleCanvasCoords env = (⟨0, 0⟩ : Vector2D)) ∧
    (env.displayAttached = false →
      getMousePos s env e = (⟨0, 0⟩ : Vector2D)) := by
  refine ⟨rfl, fun h => ?_, fun h => ?_⟩
  · simp only [getVisibleCanvasCoords]
    rw [if_neg]
    simpa using h
  · simp [getMousePos, h]

/-- C9 amended witness: the defaults at a concrete detached environment. -/
theorem c9_missing_resource_defaults_witness :
    fetchHandleId none 2 ⟨1, 1⟩ = [-1, 0] ∧
    getVisibleCanvasCoords envDetached = (⟨0, 0⟩ : Vector2D) ∧
    getMousePos baseState envDetached ⟨0, 0, 0, 0, 0⟩ =
      (⟨0, 0⟩ : Vector2D) := by
  obtain ⟨h1, h2, h3⟩ :=
    c9_missing_resource_defaults 2 ⟨1, 1⟩ baseState envDetached ⟨0, 0, 0, 0, 0⟩
  exact ⟨h1, h2 (by simp [envDetached, baseEnv]), h3 (by rfl)⟩

/-- C2: a rescale commits a scale inside `[MIN_SCALE, MAX_SCALE)`; a
requested `viewScale` outside that range leaves the whole state (hence every
viewport field) unchanged. -/
theorem c2_updateScale_scale_bounds (s : ComponentState) (env : DomEnv)
    (config : ViewerConfig) (image : ImageSize) :
    (¬(MIN_SCALE ≤ config.viewScale ∧ config.viewScale < MAX_SCALE) →
      updateScale s env config image = s) ∧
    (env.displayAttached = true → env.controlCanvasAttached = true →
     env.controlContextAttached = true →
     MIN_SCALE ≤ config.viewScale → config.viewScale < MAX_SCALE →
      (updateScale s env config image).scale = config.viewScale ∧
      MIN_SCALE ≤ (updateScale s env config image).scale ∧
      (updateScale s env config image).scale < MAX_SCALE) := by
  constructor
  · intro h
    unfold updateScale
    by_cases h1 : env.displayAttached ∧ env.controlCanvasAttached ∧
      env.controlContextAttached
    · rw [if_neg (not_not_intro h1), if_neg h]
    · rw [if_pos h1]
  · intro hd hc hx hlo hhi
    unfold updateScale
    rw [if_neg (by simp [hd, hc, hx]), if_pos ⟨hlo, hhi⟩]
    exact ⟨rfl, hlo, hhi⟩

/-- C2 witness: requesting `viewScale = 0.5` or `viewScale = 3.0` leaves the
state untouched, while the in-range request `viewScale = 2` commits
`scale = 2`. -/
theorem c2_updateScale_scale_bounds_witness :
    updateScale baseState baseEnv halfConfig image400 = baseState ∧
    updateScale baseState baseEnv threeConfig image400 = baseState ∧
    (updateScale baseState baseEnv zoomConfig image400).scale = 2 := by
  refine ⟨(c2_updateScale_scale_bounds baseState baseEnv halfConfig
      image400).1 (by norm_num [halfConfig, MIN_SCALE, MAX_SCALE]),
    (c2_updateScale_scale_bounds baseState baseEnv threeConfig
      image400).1 (by norm_num [threeConfig, MIN_SCALE, MAX_SCALE]), ?_⟩
  have h := (c2_updateScale_scale_bounds baseState baseEnv zoomConfig
      image400).2 rfl rfl rfl
      (by norm_num [zoomConfig, MIN_SCALE])
      (by norm_num [zoomConfig, MAX_SCALE])
  simpa [zoomConfig] using h.1

/-- C6: an applied rescale fits the image aspect ratio into the display: when
the display aspect ratio exceeds the image aspect ratio the height is fit
(`canvasHeight = displayHeight * viewScale`) and the width derives from the
image aspect ratio, otherwise the width is fit and the height derives;
`displayToImageRatio` is the fitted dimension over the matching image
dimension. -/
theorem c6_updateScale_canvas_fit (s : ComponentState) (env : DomEnv)
    (config : ViewerConfig) (image : ImageSize)
    (hd : env.displayAttached = true) (hc : env.controlCanvasAttached = true)
    (hx : env.controlContextAttached = true)
    (hlo : MIN_SCALE ≤ config.viewScale)
    (hhi : config.viewScale < MAX_SCALE) :
    (env.displayWidth / env.displayHeight > image.width / image.height →
      (updateScale s env config image).canvasHeight =
        env.displayHeight * config.viewScale ∧
      (updateScale s env config image).canvasWidth =
        env.displayHeight * config.viewScale * (image.width / image.height) ∧
      (updateScale s env config image).displayToImageRatio =
        env.displayHeight * config.viewScale / image.height) ∧
    (¬(env.displayWidth / env.displayHeight > image.width / image.height) →
      (updateScale s env config image).canvasWidth =
        env.displayWidth * config.viewScale ∧
      (updateScale s env config image).canvasHeight =
        env.displayWidth * config.viewScale / (image.width / image.height) ∧
      (updateScale s env config image).displayToImageRatio =
        env.displayWidth * config.viewScale / image.width) := by
  have hw : (updateScale s env config image).canvasWidth =
      (newCanvasSize env config image).1 := by
    unfold updateScale
    rw [if_neg (by simp [hd, hc, hx]), if_pos ⟨hlo, hhi⟩]
  have hh : (updateScale s env config image).canvasHeight =
      (newCanvasSize env config image).2.1 := by
    unfold updateScale
    rw [if_neg (by simp [hd, hc, hx]), if_pos ⟨hlo, hhi⟩]
  have hr : (updateScale s env config image).displayToImageRatio =
      (newCanvasSize env config image).2.2 := by
    unfold updateScale
    rw [if_neg (by simp [hd, hc, hx]), if_pos ⟨hlo, hhi⟩]
  unfold newCanvasSize at hw hh hr
  constructor
  · intro hgt
    rw [if_pos hgt] at hw hh hr
    exact ⟨hh, hw, hr⟩
  · intro hle
    rw [if_neg hle] at hw hh hr
    exact ⟨hw, hh, hr⟩

/-- C6 witness: the zoom-to-point scenario, container 800×600, image 400×300
and `viewScale = 2` yields `canvasWidth = 1600`, `canvasHeight = 1200` and
`displayToImageRatio = 4`. -/
theorem c6_updateScale_canvas_fit_witness :
    (updateScale baseState baseEnv zoomConfig image400).canvasWidth = 1600 ∧
    (updateScale baseState baseEnv zoomConfig image400).canvasHeight = 1200 ∧
    (updateScale baseState baseEnv zoomConfig image400).displayToImageRatio
      = 4 := by
  have h := (c6_updateScale_canvas_fit baseState baseEnv zoomConfig image400
      rfl rfl rfl (by norm_num [zoomConfig, MIN_SCALE])
      (by norm_num [zoomConfig, MAX_SCALE])).2
      (by norm_num [baseEnv, image400])
  refine ⟨?_, ?_, ?_⟩
  · rw [h.1]; norm_num [baseEnv, zoomConfig]
  · rw [h.2.1]; norm_num [baseEnv, zoomConfig, image400]
  · rw [h.2.2]; norm_num [baseEnv, zoomConfig, image400]

/-- C5: during an anchor-preserving rescale (in-range `viewScale > 1`) with
zoom ratio `r = viewScale / scale`, each scroll axis where the new canvas
exceeds the display gets `r * (upperLeftCoord + anchorOffset) - anchorOffset`;
an axis where it does not gets the origin reset (the canvas CSS offset), so
the adjustment is applied only on the overflowing axes. -/
theorem c5_updateScale_anchor_scroll (s : ComponentState) (env : DomEnv)
    (config : ViewerConfig) (image : ImageSize)
    (hd : env.displayAttached = true) (hc : env.controlCanvasAttached = true)
    (hx : env.controlContextAttached = true)
    (hlo : MIN_SCALE ≤ config.viewScale)
    (hhi : config.viewScale < MAX_SCALE)
    (hz : config.viewScale > 1) :
    (updateScale s env config image).scrollLeft =
      (if (newCanvasSize env config image).1 > env.displayWidth then
        config.viewScale / s.scale *
          ((getVisibleCanvasCoords env).x + (mouseOffset s env config).x) -
          (mouseOffset s env config).x
      else env.controlCanvasOffsetLeft) ∧
    (updateScale s env config image).scrollTop =
      (if (newCanvasSize env config image).2.1 > env.displayHeight then
        config.viewScale / s.scale *
          ((getVisibleCanvasCoords env).y + (mouseOffset s env config).y) -
          (mouseOffset s env config).y
      else env.controlCanvasOffsetTop) := by
  constructor <;>
  · unfold updateScale
    rw [if_neg (by simp [hd, hc, hx]), if_pos ⟨hlo, hhi⟩]
    simp only [if_pos hz]

/-- C5 witness: in the zoom-to-point scenario the new canvas 1600×1200
exceeds the 800×600 display on both axes, the anchor offset is the image
center mapped to canvas coordinates `(400, 300)` with upper-left `(0, 0)`,
and the committed scroll is `(2 * 400 - 400, 2 * 300 - 300) = (400, 300)`. -/
theorem c5_updateScale_anchor_scroll_witness :
    (updateScale baseState baseEnv zoomConfig image400).scrollLeft = 400 ∧
    (updateScale baseState baseEnv zoomConfig image400).scrollTop = 300 := by
  have h := c5_updateScale_anchor_scroll baseState baseEnv zoomConfig image400
      rfl rfl rfl (by norm_num [zoomConfig, MIN_SCALE])
      (by norm_num [zoomConfig, MAX_SCALE]) (by norm_num [zoomConfig])
  refine ⟨?_, ?_⟩
  · rw [h.1]
    norm_num [newCanvasSize, baseEnv, zoomConfig, image400, baseState,
      getVisibleCanvasCoords, mouseOffset, toCanvasCoords, Vector2D.scale]
  · rw [h.2]
    norm_num [newCanvasSize, baseEnv, zoomConfig, image400, baseState,
      getVisibleCanvasCoords, mouseOffset, toCanvasCoords, Vector2D.scale]

/-- C7: with the display attached, a positive display-to-image ratio and
nonnegative canvas dimensions, `getMousePos` returns a position inside
`[0, canvasWidth / ρ] × [0, canvasHeight / ρ]` for arbitrary client
coordinates, because both axes are clamped to the canvas before division. -/
theorem c7_getMousePos_clamped (s : ComponentState) (env : DomEnv)
    (e : MouseEvent) (hd : env.displayAttached = true)
    (hρ : 0 < s.displayToImageRatio) (hw : 0 ≤ s.canvasWidth)
    (hh : 0 ≤ s.canvasHeight) :
    0 ≤ (getMousePos s env e).x ∧
    (getMousePos s env e).x ≤ s.canvasWidth / s.displayToImageRatio ∧
    0 ≤ (getMousePos s env e).y ∧
    (getMousePos s env e).y ≤ s.canvasHeight / s.displayToImageRatio := by
  unfold getMousePos
  rw [if_pos (by simp [hd])]
  refine ⟨div_nonneg (le_max_left _ _) hρ.le, ?_,
    div_nonneg (le_max_left _ _) hρ.le, ?_⟩
  · exact (div_le_div_iff_of_pos_right hρ).mpr (max_le hw (min_le_right _ _))
  · exact (div_le_div_iff_of_pos_right hρ).mpr (max_le hh (min_le_right _ _))

/-- C7 witness: a pointer at client `(-50, 100)` over the 800×600 canvas with
ratio 2 stays inside `[0, 400] × [0, 300]`. -/
theorem c7_getMousePos_clamped_witness :
    0 ≤ (getMousePos baseState baseEnv ⟨-50, 100, -50, 100, 0⟩).x ∧
    (getMousePos baseState baseEnv ⟨-50, 100, -50, 100, 0⟩).x ≤
      baseState.canvasWidth / baseState.displayToImageRatio ∧
    0 ≤ (getMousePos baseState baseEnv ⟨-50, 100, -50, 100, 0⟩).y ∧
    (getMousePos baseState baseEnv ⟨-50, 100, -50, 100, 0⟩).y ≤
      baseState.canvasHeight / baseState.displayToImageRatio :=
  c7_getMousePos_clamped baseState baseEnv ⟨-50, 100, -50, 100, 0⟩ rfl
    (by norm_num [baseState]) (by norm_num [baseState])
    (by norm_num [baseState])

/-- C3 counterexample: a mouse-leave event whose coordinates lie outside the
frame does not clear the grab session — `onMouseLeave` delegates to
`onMouseUp`, and `onMouseUp` returns early when the event is outside the
frame, so the grab record survives and the claim that no grab session remains
after any mouse-leave is false. -/
theorem c3_counterexample_leave_outside_keeps_grab :
    grabState.isGrabbingImage = true ∧
    (onMouseLeave grabState baseEnv ⟨2000, 50, 2000, 50, 0⟩).isGrabbingImage
      = true := by
  refine ⟨rfl, ?_⟩
  have hframe : isWithinFrame baseEnv ⟨2000, 50, 2000, 50, 0⟩ = false := by
    norm_num [isWithinFrame, baseEnv]
  unfold onMouseLeave onMouseUp
  rw [if_pos (Or.inl (by simp [hframe]))]
  rfl

/-- C3 amended: a mouse-leave event always clears the entire held-key set,
but the grab session record is cleared only when the delegated mouse-up takes
effect, that is when the event lies within the frame with the primary button;
a mouse-leave outside the frame (or with another button) leaves the grab
record intact. -/
theorem c3_mouseLeave_clears_keys (s : ComponentState) (env : DomEnv)
    (e : MouseEvent) :
    (onMouseLeave s env e).keyDownMap = [] ∧
    (isWithinFrame env e = true → e.button = 0 →
      (onMouseLeave s env e).isGrabbingImage = false ∧
      (onMouseLeave s env e).startGrabX = -1 ∧
      (onMouseLeave s env e).startGrabY = -1 ∧
      (onMouseLeave s env e).startGrabVisibleCoords = []) := by
  unfold onMouseLeave onMouseUp
  by_cases hcond : ¬(isWithinFrame env e = true) ∨ e.button ≠ 0
  · rw [if_pos hcond]
    refine ⟨rfl, fun hw hb => ?_⟩
    rcases hcond with h | h
    · exact absurd hw h
    · exact absurd hb h
  · rw [if_neg hcond]
    exact ⟨rfl, fun _ _ => ⟨rfl, rfl, rfl, rfl⟩⟩

/-- C3 amended witness: a mouse-leave within the frame clears both the
held-key set and the grab session. -/
theorem c3_mouseLeave_clears_keys_witness :
    (onMouseLeave grabState baseEnv ⟨50, 60, 50, 60, 0⟩).keyDownMap = [] ∧
    (onMouseLeave grabState baseEnv ⟨50, 60, 50, 60, 0⟩).isGrabbingImage
      = false := by
  have h := c3_mouseLeave_clears_keys grabState baseEnv ⟨50, 60, 50, 60, 0⟩
  have hframe : isWithinFrame baseEnv ⟨50, 60, 50, 60, 0⟩ = true := by
    norm_num [isWithinFrame, baseEnv]
  exact ⟨h.1, (h.2 hframe rfl).1⟩

/-- Helper: in a pairwise-related list, every element either is the last
element or relates to it. -/
theorem rel_getLast?_of_pairwise {α : Type} {R : α → α → Prop} :
    ∀ {l : List α} {y : α}, l.Pairwise R → l.getLast? = some y →
      ∀ x ∈ l, x = y ∨ R x y := by
  intro l
  induction l with
  | nil => intro y _ hy x hx; simp at hx
  | cons a tl ih =>
    intro y hp hy x hx
    rcases List.mem_cons.mp hx with hxa | hxtl
    · cases tl with
      | nil =>
        left
        rw [List.getLast?_singleton] at hy
        injection hy with h
        rw [hxa, h]
      | cons b tl2 =>
        right
        rw [List.getLast?_cons_cons] at hy
        have hymem : y ∈ b :: tl2 := List.mem_of_getLast?_eq_some hy
        rw [hxa]
        exact (List.pairwise_cons.mp hp).1 y hymem
    · cases tl with
      | nil => simp at hxtl
      | cons b tl2 =>
        rw [List.getLast?_cons_cons] at hy
        exact ih (List.pairwise_cons.mp hp).2 hy x hxtl

/-- Helper: two distinct values occur jointly at most `length` many times. -/
theorem count_pair_le_length {a b : ℕ} (hab : a ≠ b) :
    ∀ l : List ℕ, l.count a + l.count b ≤ l.length := by
  intro l
  induction l with
  | nil => simp
  | cons c tl ih =>
    rw [List.count_cons, List.count_cons, List.length_cons]
    by_cases h1 : c = a <;> by_cases h2 : c = b
    · exact absurd (h1.symm.trans h2) hab
    · rw [if_pos (by simp [h1]), if_neg (by simp [h2])]
      omega
    · rw [if_neg (by simp [h1]), if_pos (by simp [h2])]
      omega
    · rw [if_neg (by simp [h1]), if_neg (by simp [h2])]
      omega

/-- C4: on any 16-element sample array with a strict majority value, `mode`
returns that majority (in whatever order the samples arrive, since the
hypothesis only constrains the count), and `mode` is a function of its input,
so repeated calls on identical input return the same value. -/
theorem c4_mode_majority_deterministic :
    (∀ (arr : List ℕ) (m : ℕ), arr.length = 16 → 8 < arr.count m →
      mode arr = some m) ∧
    (∀ arr1 arr2 : List ℕ, arr1 = arr2 → mode arr1 = mode arr2) := by
  constructor
  · intro arr m hlen hcount
    unfold mode
    have hperm := List.perm_insertionSort
      (fun a b : ℕ => arr.count a ≤ arr.count b) arr
    have hsorted : (arr.insertionSort
        (fun a b : ℕ => arr.count a ≤ arr.count b)).Pairwise
        (fun a b : ℕ => arr.count a ≤ arr.count b) := by
      haveI : IsTotal ℕ (fun a b : ℕ => arr.count a ≤ arr.count b) :=
        ⟨fun a b => Nat.le_total _ _⟩
      haveI : IsTrans ℕ (fun a b : ℕ => arr.count a ≤ arr.count b) :=
        ⟨fun _ _ _ h1 h2 => le_trans h1 h2⟩
      exact List.sorted_insertionSort _ arr
    set l := arr.insertionSort (fun a b : ℕ => arr.count a ≤ arr.count b)
      with hldef
    have hlen2 : l.length = 16 := hperm.length_eq.trans hlen
    have hne : l ≠ [] := by
      intro h
      rw [h] at hlen2
      exact absurd hlen2 (by simp)
    have hy := List.getLast?_eq_getLast l hne
    have hmem_m : m ∈ l := hperm.mem_iff.mpr (List.count_pos_iff.mp
      (by omega))
    rcases rel_getLast?_of_pairwise hsorted hy m hmem_m with heq | hle
    · rw [hy, heq]
    · by_cases hxy : l.getLast hne = m
      · rw [hy, hxy]
      · exfalso
        have h1 : 8 < arr.count (l.getLast hne) :=
          lt_of_lt_of_le hcount hle
        have h2 := count_pair_le_length hxy arr
        omega
  · intro arr1 arr2 h
    rw [h]

/-- C4 witness: the interleaved 9-to-7 majority array yields its majority 5,
and the engineered 8–8 tie evaluates to one fixed value on identical calls. -/
theorem c4_mode_majority_deterministic_witness :
    mode majoritySample = some 5 ∧ mode tieSample = mode tieSample :=
  ⟨c4_mode_majority_deterministic.1 majoritySample 5 (by decide) (by decide),
   c4_mode_majority_deterministic.2 tieSample tieSample rfl⟩

/-- C8: the grab-pan scenario. A primary-button mouse-down inside the frame
with Control held and a control canvas larger than the display starts a grab
session recording the client coordinates and the visible canvas coordinates
as start scroll offsets; a subsequent mouse-move by a client delta sets the
scroll position to the recorded start minus the delta; a primary-button
mouse-up inside the frame clears the grab; and a further mouse-move after
the modifier was released leaves the scroll position unchanged. -/
theorem c8_grab_pan_scenario (s : ComponentState) (env : DomEnv)
    (ed em eu e2 : MouseEvent)
    (hdf : isWithinFrame env ed = true) (hdb : ed.button = 0)
    (hctrl : isKeyDown s "Control" = true)
    (hdisp : env.displayAttached = true)
    (hcanv : env.controlCanvasAttached = true)
    (hbig : env.controlCanvasWidth > env.displayWidth ∨
            env.controlCanvasHeight > env.displayHeight)
    (hmf : isWithinFrame env em = true)
    (huf : isWithinFrame env eu = true) (hub : eu.button = 0)
    (h2f : isWithinFrame env e2 = true) :
    (onMouseDown s env ed).isGrabbingImage = true ∧
    (onMouseDown s env ed).startGrabX = ed.clientX ∧
    (onMouseDown s env ed).startGrabY = ed.clientY ∧
    (onMouseDown s env ed).startGrabVisibleCoords = [(getVisibleCanvasCoords env).x, (getVisibleCanvasCoords env).y] ∧
    (onMouseMove (onMouseDown s env ed) env em).scrollLeft = (getVisibleCanvasCoords env).x - (em.clientX - ed.clientX) ∧
    (onMouseMove (onMouseDown s env ed) env em).scrollTop = (getVisibleCanvasCoords env).y - (em.clientY - ed.clientY) ∧
    (onMouseUp (onMouseMove (onMouseDown s env ed) env em) env eu).isGrabbingImage = false ∧
    (onMouseMove (onKeyUp (onMouseUp (onMouseMove (onMouseDown s env ed) env em) env eu) "Control") env e2).scrollLeft = (onMouseUp (onMouseMove (onMouseDown s env ed) env em) env eu).scrollLeft ∧
    (onMouseMove (onKeyUp (onMouseUp (onMouseMove (onMouseDown s env ed) env em) env eu) "Control") env e2).scrollTop = (onMouseUp (onMouseMove (onMouseDown s env ed) env em) env eu).scrollTop := by
  have hs1 : onMouseDown s env ed =
      { s with
        cursor := "grabbing"
        isGrabbingImage := true
        startGrabX := ed.clientX
        startGrabY := ed.clientY
        startGrabVisibleCoords := [(getVisibleCanvasCoords env).x, (getVisibleCanvasCoords env).y] } := by
    unfold onMouseDown
    rw [if_neg (by simp [hdf, hdb]), if_pos hctrl,
      if_pos ⟨by simp [hdisp], by simp [hcanv], hbig⟩]
  have hs2 : onMouseMove (onMouseDown s env ed) env em =
      { onMouseDown s env ed with
        cursor := "grabbing"
        scrollLeft := (getVisibleCanvasCoords env).x - (em.clientX - ed.clientX)
        scrollTop := (getVisibleCanvasCoords env).y - (em.clientY - ed.clientY) } := by
    have h1 : isKeyDown (onMouseDown s env ed) "Control" = true := by
      rw [hs1]; exact hctrl
    have h2 : (onMouseDown s env ed).isGrabbingImage = true := by rw [hs1]
    unfold onMouseMove
    rw [if_neg (by simp [hmf]), if_pos h1, if_pos h2,
      if_pos (by simp [hdisp])]
    rw [hs1]
    rfl
  have hs3 : onMouseUp (onMouseMove (onMouseDown s env ed) env em) env eu =
      { onMouseMove (onMouseDown s env ed) env em with
        isGrabbingImage := false
        startGrabX := -1
        startGrabY := -1
        startGrabVisibleCoords := [] } := by
    unfold onMouseUp
    rw [if_neg (by simp [huf, hub])]
  have hkeys : isKeyDown (onKeyUp (onMouseUp (onMouseMove
      (onMouseDown s env ed) env em) env eu) "Control") "Control" = false := by
    simp [isKeyDown, onKeyUp, List.mem_filter]
  have hs4 : onMouseMove (onKeyUp (onMouseUp (onMouseMove
      (onMouseDown s env ed) env em) env eu) "Control") env e2 =
      { onKeyUp (onMouseUp (onMouseMove (onMouseDown s env ed) env em) env eu) "Control" with
        cursor := "crosshair" } := by
    set t := onKeyUp (onMouseUp (onMouseMove (onMouseDown s env ed) env em)
      env eu) "Control" with ht
    unfold onMouseMove
    rw [if_neg (by simp [h2f]), if_neg (by simp [hkeys])]
  refine ⟨by rw [hs1], by rw [hs1], by rw [hs1], by rw [hs1],
    by rw [hs2, hs1], by rw [hs2, hs1], by rw [hs3],
    by rw [hs4, hs3]; rfl, by rw [hs4, hs3]; rfl⟩

/-- C8 witness: a concrete grab-pan run in the 800×600 display with the
1600×1200 control canvas: the mouse-down at client `(10, 10)` starts the
grab, the move to `(20, 25)` scrolls to `(0 - 10, 0 - 15) = (-10, -15)`, the
mouse-up clears the grab, and the later move without Control keeps the
scroll. -/
theorem c8_grab_pan_scenario_witness :
    (onMouseDown ctrlState baseEnv grabDownEvent).isGrabbingImage = true ∧
    (onMouseMove (onMouseDown ctrlState baseEnv grabDownEvent) baseEnv grabMoveEvent).scrollLeft = -10 ∧
    (onMouseMove (onMouseDown ctrlState baseEnv grabDownEvent) baseEnv grabMoveEvent).scrollTop = -15 ∧
    (onMouseUp (onMouseMove (onMouseDown ctrlState baseEnv grabDownEvent) baseEnv grabMoveEvent) baseEnv grabUpEvent).isGrabbingImage = false ∧
    (onMouseMove (onKeyUp (onMouseUp (onMouseMove (onMouseDown ctrlState baseEnv grabDownEvent) baseEnv grabMoveEvent) baseEnv grabUpEvent) "Control") baseEnv afterMoveEvent).scrollLeft = (onMouseUp (onMouseMove (onMouseDown ctrlState baseEnv grabDownEvent) baseEnv grabMoveEvent) baseEnv grabUpEvent).scrollLeft := by
  have h := c8_grab_pan_scenario ctrlState baseEnv grabDownEvent
    grabMoveEvent grabUpEvent afterMoveEvent
    (by norm_num [isWithinFrame, baseEnv, grabDownEvent]) rfl
    (by simp [isKeyDown, ctrlState, baseState])
    rfl rfl (Or.inl (by norm_num [baseEnv]))
    (by norm_num [isWithinFrame, baseEnv, grabMoveEvent])
    (by norm_num [isWithinFrame, baseEnv, grabUpEvent]) rfl
    (by norm_num [isWithinFrame, baseEnv, afterMoveEvent])
  refine ⟨h.1, ?_, ?_, h.2.2.2.2.2.2.1, h.2.2.2.2.2.2.2.1⟩
  · rw [h.2.2.2.2.1]
    norm_num [getVisibleCanvasCoords, baseEnv, grabMoveEvent, grabDownEvent]
  · rw [h.2.2.2.2.2.1]
    norm_num [getVisibleCanvasCoords, baseEnv, grabMoveEvent, grabDownEvent]

end Label2DView
